import Mathlib

/-!
Verification development for the SJ-serverjs backend (src/server.js, two
revisions of the same Express server). The file shallowly embeds the two
order/product handler variants:

- the "Policy B" variant (server.js lines 1-152): the order handler responds
  immediately after validation and fires the WhatsApp notification afterwards,
  with its failure caught and logged inside sendWhatsAppOrder;
- the "Policy A" variant (server.js lines 153-399): the order handler awaits
  sendWhatsAppOrder and maps its outcome to the response status.

External collaborators are modelled as oracles: the Notification Client
(axios post to the WhatsApp API) is a boolean outcome, and the Object Store
(uploadToCloudinary) is represented by the URL an uploaded file would yield,
so a request carries the resulting URL instead of raw bytes. The relational
store is a list of product rows plus the next serial id; the SQL statements
of the handlers are embedded as list operations.
-/

namespace SJServer

/-- JavaScript truthiness of a possibly-absent string field: absent and the
empty string are falsy, every other string is truthy. -/
def truthyStr : Option String → Bool
  | none => false
  | some s => s != ""

/-- JavaScript template-literal rendering of a possibly-absent string field:
an absent field interpolates as the text "undefined". -/
def jstr : Option String → String
  | none => "undefined"
  | some s => s

/-- An element of an order's items array, as read by the Policy A message
formatter (item.title and item.weight). -/
structure Item where
  title : Option String
  weight : Option String
deriving DecidableEq

/-- An order payload (req.body of POST /api/orders). Every field may be
absent. The Policy B formatter reads order.total while the Policy A
formatter reads order.totalAmount; both properties are kept. -/
structure Order where
  customerName : Option String
  phone : Option String
  address : Option String
  items : Option (List Item)
  total : Option String
  totalAmount : Option String
  paymentMethod : Option String
  orderId : Option String
deriving DecidableEq

/-- A row of the products table. Columns other than id are nullable: an
undefined request field is inserted as NULL. -/
structure Product where
  id : Nat
  title : Option String
  description : Option String
  image : Option String
  weight : Option String
  category : Option String
deriving DecidableEq

/-- The relational store: the products table plus the next serial id. -/
structure Store where
  products : List Product
  nextId : Nat
deriving DecidableEq

/-- The store before any insertion; serial ids start at 1. -/
def emptyStore : Store := { products := [], nextId := 1 }

/-- The column values supplied to the INSERT INTO products statement. -/
structure ProductFields where
  title : Option String
  description : Option String
  image : Option String
  weight : Option String
  category : Option String
deriving DecidableEq

/-- INSERT INTO products ... RETURNING *: appends a row carrying the next
serial id and returns it. -/
def insertRecord (f : ProductFields) (s : Store) : Store × Product :=
  let p : Product :=
    { id := s.nextId, title := f.title, description := f.description,
      image := f.image, weight := f.weight, category := f.category }
  ({ products := s.products ++ [p], nextId := s.nextId + 1 }, p)

/-- Runs a sequence of raw inserts against a store. -/
def applyInserts : List ProductFields → Store → Store
  | [], s => s
  | f :: fs, s => applyInserts fs (insertRecord f s).1

/-- A JSON response body, by shape: success-flag objects, error objects,
single records, record arrays, message objects, and the empty body produced
by res.json of an undefined value. -/
inductive Body where
  | successMsg (success : Bool) (message : String)
  | errObj (error : String)
  | productRec (p : Product)
  | productList (ps : List Product)
  | msgObj (message : String)
  | empty
deriving DecidableEq

/-- True exactly on bodies of shape success-flag plus message. -/
def Body.isSuccessMsg : Body → Bool
  | .successMsg _ _ => true
  | _ => false

/-- An HTTP response: status code and JSON body. -/
structure Response where
  status : Nat
  body : Body
deriving DecidableEq

/-- What the Policy B sendWhatsAppOrder leaves in the console: either the
success log after a sent message, or the failure log written by its catch
block. -/
inductive NotifyLog where
  | sent (message : String)
  | loggedFailure (err : String)
deriving DecidableEq

/-- The observable outcome of an order handler: the HTTP response, the list
of message bodies actually posted to the Notification Client, and, for the
Policy B variant, the log record of the background notification. -/
structure HandlerResult where
  response : Response
  attempts : List String
  notifyLog : Option NotifyLog
deriving DecidableEq

/-- The request payload of the product create/update handlers: the multipart
text fields plus, when a file was uploaded, the URL the Object Store returns
for it (the upload itself is an external collaborator). -/
structure ProductReq where
  title : Option String
  description : Option String
  weight : Option String
  category : Option String
  imageUrl : Option String
  file : Option String
deriving DecidableEq

/-- Insertion of one row into a list sorted by descending id, keeping the
descending order. -/
def insertDesc (p : Product) : List Product → List Product
  | [] => [p]
  | q :: qs => if q.id ≤ p.id then p :: q :: qs else q :: insertDesc p qs

/-- The row order produced by SELECT * FROM products ORDER BY id DESC,
as an insertion sort by descending id. -/
def sortByIdDesc : List Product → List Product
  | [] => []
  | p :: ps => insertDesc p (sortByIdDesc ps)

/-- GET /api/products: all rows, ordered by descending id. -/
def listProducts (s : Store) : Response :=
  { status := 200, body := Body.productList (sortByIdDesc s.products) }

namespace PolicyB

/-- Validation of the Policy B order handler: customerName, phone and
address must all be truthy. -/
def validate (o : Order) : Bool :=
  truthyStr o.customerName && truthyStr o.phone && truthyStr o.address

/-- The message template of the Policy B sendWhatsAppOrder; absent fields
render as the text "undefined". -/
def formatMessage (o : Order) : String :=
  "🛍 NEW ORDER\n\nName: " ++ jstr o.customerName ++
  "\nPhone: " ++ jstr o.phone ++
  "\nAddress: " ++ jstr o.address ++
  "\nTotal: Rs " ++ jstr o.total

/-- The axios post inside the Policy B sendWhatsAppOrder try block, with the
Notification Client modelled as the boolean oracle ok. -/
def notifyAttempt (ok : Bool) (o : Order) : Except String String :=
  if ok then Except.ok (formatMessage o)
  else Except.error "Request failed with status code 401"

/-- The Policy B sendWhatsAppOrder: the whole body sits in a try/catch, so
the function is total; a failing post is converted into a logged failure.
Also returns the list of messages posted to the Notification Client. -/
def sendWhatsAppOrder (ok : Bool) (o : Order) : NotifyLog × List String :=
  match notifyAttempt ok o with
  | Except.ok m => (NotifyLog.sent m, [formatMessage o])
  | Except.error e => (NotifyLog.loggedFailure e, [formatMessage o])

/-- POST /api/orders, Policy B variant: on validation failure a 400 with a
success:false message body; otherwise the 200 success body is sent
immediately and sendWhatsAppOrder runs afterwards. -/
def ordersHandler (ok : Bool) (o : Order) : HandlerResult :=
  if validate o then
    { response := { status := 200,
                    body := Body.successMsg true "Order placed successfully" },
      attempts := (sendWhatsAppOrder ok o).2,
      notifyLog := some (sendWhatsAppOrder ok o).1 }
  else
    { response := { status := 400,
                    body := Body.successMsg false "Invalid order data" },
      attempts := [], notifyLog := none }

/-- POST /api/products, Policy B variant: no field validation; the image
column is the uploaded file URL when a file is present, else the imageUrl
field as given (possibly NULL), and the inserted row is returned with the
default 200 status. -/
def createProduct (r : ProductReq) (s : Store) : Store × Response :=
  let image : Option String :=
    match r.file with
    | some u => some u
    | none => r.imageUrl
  let ins := insertRecord
    { title := r.title, description := r.description, image := image,
      weight := r.weight, category := r.category } s
  (ins.1, { status := 200, body := Body.productRec ins.2 })

end PolicyB

namespace PolicyA

/-- Validation of the Policy A order handler: customerName, phone and
address must be truthy and the items field must be present. -/
def validate (o : Order) : Bool :=
  truthyStr o.customerName && truthyStr o.phone && truthyStr o.address
    && o.items.isSome

/-- The itemsText accumulation of the Policy A formatter: one line per item
with its 1-based index, title and weight. -/
def itemsTextFrom (i : Nat) : List Item → String
  | [] => ""
  | it :: rest =>
      toString (i + 1) ++ ". " ++ jstr it.title ++ " (" ++ jstr it.weight ++
      "g)\n" ++ itemsTextFrom (i + 1) rest

/-- The message template of the Policy A sendWhatsAppOrder, given the items
list; absent optional fields render as the text "undefined". -/
def formatMessage (o : Order) (its : List Item) : String :=
  "🛍 *NEW ORDER RECEIVED*\n\n👤 *Name:* " ++ jstr o.customerName ++
  "\n📞 *Phone:* " ++ jstr o.phone ++
  "\n📍 *Address:* " ++ jstr o.address ++
  "\n\n💳 *Payment:* " ++ jstr o.paymentMethod ++
  "\n💰 *Total:* Rs " ++ jstr o.totalAmount ++
  "\n\n📦 *Items:*\n" ++ itemsTextFrom 0 its ++
  "\n\n🆔 *Order ID:* " ++ jstr o.orderId ++
  "\n\nSJ Jewellers"

/-- The formatting step of the Policy A sendWhatsAppOrder: iterating
order.items.forEach throws a TypeError when items is absent, otherwise the
message is built totally. -/
def formatResult (o : Order) : Except String String :=
  match o.items with
  | none => Except.error "TypeError: order.items.forEach is not a function"
  | some its => Except.ok (formatMessage o its)

/-- The Policy A sendWhatsAppOrder: formats the message (which can throw),
then posts it; the post outcome is the boolean oracle ok. No catch block:
any error propagates to the caller. Also returns the messages actually
posted to the Notification Client. -/
def sendWhatsAppOrder (ok : Bool) (o : Order) : Except String String × List String :=
  match formatResult o with
  | Except.error e => (Except.error e, [])
  | Except.ok m =>
      (if ok then Except.ok m
       else Except.error "Request failed with status code 401", [m])

/-- POST /api/orders, Policy A variant: 400 with an error object on
validation failure; otherwise sendWhatsAppOrder is awaited and its outcome
decides between the 200 success body and the 500 failure body. -/
def ordersHandler (ok : Bool) (o : Order) : HandlerResult :=
  if validate o then
    match sendWhatsAppOrder ok o with
    | (Except.ok _, tr) =>
        { response := { status := 200,
                        body := Body.successMsg true "Order received & WhatsApp sent" },
          attempts := tr, notifyLog := none }
    | (Except.error _, tr) =>
        { response := { status := 500,
                        body := Body.successMsg false "Failed to process order" },
          attempts := tr, notifyLog := none }
  else
    { response := { status := 400, body := Body.errObj "Missing order fields" },
      attempts := [], notifyLog := none }

/-- POST /api/products, Policy A variant: title and category are required,
then an uploaded file or a truthy imageUrl must supply the image; on success
the row is inserted and returned with status 201. -/
def createProduct (r : ProductReq) (s : Store) : Store × Response :=
  if !(truthyStr r.title) || !(truthyStr r.category) then
    (s, { status := 400, body := Body.errObj "Title and category required" })
  else
    match r.file with
    | some u =>
        let ins := insertRecord
          { title := r.title, description := r.description, image := some u,
            weight := r.weight, category := r.category } s
        (ins.1, { status := 201, body := Body.productRec ins.2 })
    | none =>
        if truthyStr r.imageUrl then
          let ins := insertRecord
            { title := r.title, description := r.description, image := r.imageUrl,
              weight := r.weight, category := r.category } s
          (ins.1, { status := 201, body := Body.productRec ins.2 })
        else
          (s, { status := 400, body := Body.errObj "Image or Image URL required" })

/-- The image column value of the UPDATE statement: the uploaded file URL if
present, else the imageUrl field when truthy, else NULL. -/
def updateImage (r : ProductReq) : Option String :=
  match r.file with
  | some u => some u
  | none => if truthyStr r.imageUrl then r.imageUrl else none

/-- The SET clause of the UPDATE statement applied to a matched row: every
column is overwritten with the request value, NULL for absent fields. -/
def updatedFields (r : ProductReq) (p : Product) : Product :=
  { id := p.id, title := r.title, description := r.description,
    image := updateImage r, weight := r.weight, category := r.category }

/-- One row of the table under UPDATE ... WHERE id=$6: rewritten when the
id matches, untouched otherwise. -/
def updateRow (r : ProductReq) (i : Nat) (p : Product) : Product :=
  if p.id == i then updatedFields r p else p

/-- PUT /api/products/:id: runs the UPDATE over the table and responds with
rows[0] of RETURNING * — the updated record when the id matched, and the
empty body of res.json applied to undefined when it did not. -/
def updateProduct (r : ProductReq) (i : Nat) (s : Store) : Store × Response :=
  ({ s with products := s.products.map (updateRow r i) },
   match (s.products.map (updateRow r i)).filter (fun p => p.id == i) with
   | [] => { status := 200, body := Body.empty }
   | p :: _ => { status := 200, body := Body.productRec p })

/-- DELETE /api/products/:id: removes the matching rows (none may exist) and
always responds with the deletion message. -/
def deleteProduct (i : Nat) (s : Store) : Store × Response :=
  ({ s with products := s.products.filter (fun p => !(p.id == i)) },
   { status := 200, body := Body.msgObj "Product deleted" })

end PolicyA

/-- A valid order used to witness the Policy B order-handler behavior. -/
def c1Order : Order :=
  { customerName := some "A", phone := some "123", address := some "Street 1",
    items := none, total := some "500", totalAmount := none,
    paymentMethod := none, orderId := none }

/-- A valid order used to witness the Policy A order-handler behavior. -/
def c2Order : Order :=
  { customerName := some "A", phone := some "123", address := some "Street 1",
    items := some [{ title := some "Ring", weight := some "10" }],
    total := none, totalAmount := some "500",
    paymentMethod := none, orderId := none }

/-- An order missing the required customerName field. -/
def c3Order : Order :=
  { customerName := none, phone := some "123", address := some "Street 1",
    items := some [], total := none, totalAmount := none,
    paymentMethod := none, orderId := none }

/-- The scenario payload of the spec: customerName "A" and phone "123" with
every other field absent. -/
def c4Order : Order :=
  { customerName := some "A", phone := some "123", address := none,
    items := none, total := none, totalAmount := none,
    paymentMethod := none, orderId := none }

/-- The scenario payload completed with the fields the code actually
requires: an address, and an items array for the Policy A variant. -/
def c4FullOrder : Order :=
  { customerName := some "A", phone := some "123", address := some "B",
    items := some [], total := none, totalAmount := none,
    paymentMethod := none, orderId := none }

/-- A fully populated stored product row. -/
def c5Product : Product :=
  { id := 1, title := some "Old ring", description := some "A gold ring",
    image := some "http://img/a.jpg", weight := some "10", category := some "Gold" }

/-- A store holding the one fully populated row. -/
def c5Store : Store := { products := [c5Product], nextId := 2 }

/-- An update request supplying only a title. -/
def c5Req : ProductReq :=
  { title := some "New ring", description := none, weight := none,
    category := none, imageUrl := none, file := none }

/-- A product-creation request carrying neither a file nor an imageUrl. -/
def c6Req : ProductReq :=
  { title := some "Ring", description := none, weight := none,
    category := some "Gold", imageUrl := none, file := none }

/-- An order whose Policy B optional field (total) is absent. -/
def c7OrderB : Order :=
  { customerName := some "A", phone := some "123", address := some "X",
    items := none, total := none, totalAmount := none,
    paymentMethod := none, orderId := none }

/-- A Policy A valid order whose optional paymentMethod, totalAmount and
orderId fields are all absent. -/
def c7OrderA : Order :=
  { customerName := some "A", phone := some "123", address := some "X",
    items := some [{ title := some "Ring", weight := some "10" }],
    total := none, totalAmount := none, paymentMethod := none, orderId := none }

/-- A stored product row used for the nonexistent-id update claim. -/
def c10Product : Product :=
  { id := 1, title := some "Ring", description := some "desc",
    image := some "http://img/b.jpg", weight := some "5", category := some "Gold" }

/-- A store holding the one row with id 1, so id 2 matches nothing. -/
def c10Store : Store := { products := [c10Product], nextId := 2 }

/-- An update request used against the nonexistent id. -/
def c10Req : ProductReq :=
  { title := some "Other", description := none, weight := none,
    category := none, imageUrl := none, file := none }

/-- The products list carries strictly increasing ids. -/
def IdsIncreasing (l : List Product) : Prop :=
  l.Pairwise (fun a b => a.id < b.id)

/-- Store invariant maintained by insertion: ids strictly increase along the
table and stay below the next serial id. -/
def StoreInv (s : Store) : Prop :=
  IdsIncreasing s.products ∧ ∀ p ∈ s.products, p.id < s.nextId

/-- C1: under Policy B, once validation passes the response is 200 with the
success body whatever the Notification Client does — it equals the response
under a succeeding client — and a failing notification attempt is caught and
recorded as a logged failure only. -/
theorem policyB_order_response_independent_of_notification
    (o : Order) (ok : Bool) (h : PolicyB.validate o = true) :
    (PolicyB.ordersHandler ok o).response
      = { status := 200, body := Body.successMsg true "Order placed successfully" } ∧
    (PolicyB.ordersHandler ok o).response = (PolicyB.ordersHandler true o).response ∧
    (∀ e, PolicyB.notifyAttempt ok o = Except.error e →
      (PolicyB.ordersHandler ok o).notifyLog = some (NotifyLog.loggedFailure e)) := by
  refine ⟨?_, ?_, ?_⟩
  · simp [PolicyB.ordersHandler, h]
  · simp [PolicyB.ordersHandler, h]
  · intro e he
    simp [PolicyB.ordersHandler, h, PolicyB.sendWhatsAppOrder, he]

/-- Witness for C1 at a concrete valid order and a failing client. -/
theorem policyB_order_response_independent_of_notification_witness :
    (PolicyB.ordersHandler false c1Order).response
      = { status := 200, body := Body.successMsg true "Order placed successfully" } :=
  (policyB_order_response_independent_of_notification c1Order false (by decide)).1

/-- C2: under Policy A, once validation passes the handler awaits the
Notification Client and mirrors its outcome: 200 with the success body when
it succeeds, 500 with the failure body when it fails. -/
theorem policyA_order_status_reflects_notification
    (o : Order) (h : PolicyA.validate o = true) :
    (PolicyA.ordersHandler true o).response
      = { status := 200, body := Body.successMsg true "Order received & WhatsApp sent" } ∧
    (PolicyA.ordersHandler false o).response
      = { status := 500, body := Body.successMsg false "Failed to process order" } := by
  have hsome : o.items.isSome = true := by
    have h4 := h
    simp [PolicyA.validate, Bool.and_eq_true] at h4
    exact h4.2
  obtain ⟨its, hits⟩ := Option.isSome_iff_exists.mp hsome
  constructor
  · simp [PolicyA.ordersHandler, h, PolicyA.sendWhatsAppOrder, PolicyA.formatResult, hits]
  · simp [PolicyA.ordersHandler, h, PolicyA.sendWhatsAppOrder, PolicyA.formatResult, hits]

/-- Witness for C2 at a concrete valid order. -/
theorem policyA_order_status_reflects_notification_witness :
    (PolicyA.ordersHandler true c2Order).response
      = { status := 200, body := Body.successMsg true "Order received & WhatsApp sent" } ∧
    (PolicyA.ordersHandler false c2Order).response
      = { status := 500, body := Body.successMsg false "Failed to process order" } :=
  policyA_order_status_reflects_notification c2Order (by decide)

/-- C3 counterexample: on an order missing customerName, the Policy A
variant does respond 400, but its body is the error object, not a body of
shape success-flag plus message as the claim states. -/
theorem policyA_validation_error_body_not_success_shape :
    (PolicyA.ordersHandler true c3Order).response.status = 400 ∧
    (PolicyA.ordersHandler true c3Order).response.body.isSuccessMsg = false := by
  constructor <;> rfl

/-- C3 amended: an order payload failing validation gets status 400 with an
error body — success:false plus message under Policy B, an error object
under Policy A — the Notification Client is never invoked, and neither
handler touches any store. -/
theorem order_validation_failure_400_no_notification (o : Order) (ok : Bool) :
    (PolicyB.validate o = false →
      PolicyB.ordersHandler ok o
        = { response := { status := 400, body := Body.successMsg false "Invalid order data" },
            attempts := [], notifyLog := none }) ∧
    (PolicyA.validate o = false →
      PolicyA.ordersHandler ok o
        = { response := { status := 400, body := Body.errObj "Missing order fields" },
            attempts := [], notifyLog := none }) := by
  constructor
  · intro h; simp [PolicyB.ordersHandler, h]
  · intro h; simp [PolicyA.ordersHandler, h]

/-- Witness for the amended C3 at a concrete invalid order. -/
theorem order_validation_failure_400_no_notification_witness :
    PolicyB.ordersHandler false c3Order
      = { response := { status := 400, body := Body.successMsg false "Invalid order data" },
          attempts := [], notifyLog := none } ∧
    PolicyA.ordersHandler false c3Order
      = { response := { status := 400, body := Body.errObj "Missing order fields" },
          attempts := [], notifyLog := none } :=
  ⟨(order_validation_failure_400_no_notification c3Order false).1 (by decide),
   (order_validation_failure_400_no_notification c3Order false).2 (by decide)⟩

/-- C4 counterexample: the payload with only customerName "A" and phone
"123" does not pass validation in either variant — both handlers answer 400
even with a failing Notification Client, against the claimed 500/200. -/
theorem minimal_payload_fails_validation_returns_400 :
    PolicyB.validate c4Order = false ∧
    PolicyA.validate c4Order = false ∧
    (PolicyB.ordersHandler false c4Order).response.status = 400 ∧
    (PolicyA.ordersHandler false c4Order).response.status = 400 := by
  refine ⟨by decide, by decide, ?_, ?_⟩ <;> rfl

/-- C4 amended: the scenario payload also needs an address (and an items
array under Policy A) to pass validation; with those supplied and the
Notification Client failing, Policy A answers 500 success:false and Policy B
answers 200 success:true while logging the failure. -/
theorem full_payload_notification_failure_outcomes :
    (PolicyA.ordersHandler false c4FullOrder).response
      = { status := 500, body := Body.successMsg false "Failed to process order" } ∧
    (PolicyB.ordersHandler false c4FullOrder).response
      = { status := 200, body := Body.successMsg true "Order placed successfully" } ∧
    ∃ e, (PolicyB.ordersHandler false c4FullOrder).notifyLog
      = some (NotifyLog.loggedFailure e) := by
  refine ⟨rfl, rfl, "Request failed with status code 401", rfl⟩

/-- C5: evaluating the update handler at the failing input — a title-only
update of a fully populated row — shows the UPDATE statement overwrites the
unspecified description, image, weight and category columns with NULL
instead of preserving them. -/
theorem update_title_only_nulls_other_fields :
    (PolicyA.updateProduct c5Req 1 c5Store).1.products
      = [{ id := 1, title := some "New ring", description := none,
           image := none, weight := none, category := none }] ∧
    (PolicyA.updateProduct c5Req 1 c5Store).2
      = { status := 200,
          body := Body.productRec
            { id := 1, title := some "New ring", description := none,
              image := none, weight := none, category := none } } := by
  constructor <;> rfl

/-- C6 counterexample: the Policy B create handler accepts a request with
neither a file nor an imageUrl — it answers 200, not 400, and inserts a row
with a NULL image. -/
theorem policyB_create_without_image_inserts :
    (PolicyB.createProduct c6Req emptyStore).2.status = 200 ∧
    (PolicyB.createProduct c6Req emptyStore).1.products
      = [{ id := 1, title := some "Ring", description := none,
           image := none, weight := none, category := some "Gold" }] := by
  constructor <;> rfl

/-- C6 amended: when neither a file nor a truthy imageUrl is supplied, the
Policy A create handler answers 400 and leaves the store untouched, while
the Policy B create handler performs the insert anyway with a NULL image and
answers 200 with the row. -/
theorem create_without_image_policyA_rejects_policyB_inserts
    (r : ProductReq) (s : Store) (hf : r.file = none) (hu : r.imageUrl = none) :
    ((PolicyA.createProduct r s).1 = s ∧ (PolicyA.createProduct r s).2.status = 400) ∧
    ((PolicyB.createProduct r s).2.status = 200 ∧
     (PolicyB.createProduct r s).1.products
       = s.products ++ [{ id := s.nextId, title := r.title,
                          description := r.description, image := none,
                          weight := r.weight, category := r.category }]) := by
  constructor
  · simp only [PolicyA.createProduct, hf, hu]
    split
    · exact ⟨rfl, rfl⟩
    · exact ⟨rfl, rfl⟩
  · constructor
    · rfl
    · simp [PolicyB.createProduct, insertRecord, hf, hu]

/-- Witness for the amended C6 at a concrete request and the empty store. -/
theorem create_without_image_policyA_rejects_policyB_inserts_witness :
    ((PolicyA.createProduct c6Req emptyStore).1 = emptyStore ∧
     (PolicyA.createProduct c6Req emptyStore).2.status = 400) ∧
    ((PolicyB.createProduct c6Req emptyStore).2.status = 200 ∧
     (PolicyB.createProduct c6Req emptyStore).1.products
       = emptyStore.products ++ [{ id := emptyStore.nextId, title := c6Req.title,
                                   description := c6Req.description, image := none,
                                   weight := c6Req.weight, category := c6Req.category }]) :=
  create_without_image_policyA_rejects_policyB_inserts c6Req emptyStore rfl rfl

/-- C7: message formatting is total on validated orders — the Policy A
formatter returns a message for every order passing Policy A validation, and
absent optional fields are interpolated as the placeholder text "undefined"
rather than raising an error, as the Policy B message of an order with no
total shows. -/
theorem format_total_for_validated_orders :
    (∀ o, PolicyA.validate o = true → ∃ m, PolicyA.formatResult o = Except.ok m) ∧
    PolicyB.formatMessage c7OrderB
      = "🛍 NEW ORDER\n\nName: A\nPhone: 123\nAddress: X\nTotal: Rs undefined" ∧
    PolicyA.formatResult c7OrderA
      = Except.ok (PolicyA.formatMessage c7OrderA
          [{ title := some "Ring", weight := some "10" }]) := by
  refine ⟨?_, rfl, rfl⟩
  intro o h
  have hsome : o.items.isSome = true := by
    simp [PolicyA.validate, Bool.and_eq_true] at h
    exact h.2
  obtain ⟨its, hits⟩ := Option.isSome_iff_exists.mp hsome
  exact ⟨PolicyA.formatMessage o its, by simp [PolicyA.formatResult, hits]⟩

/-- Witness for C7 at a concrete validated order. -/
theorem format_total_for_validated_orders_witness :
    ∃ m, PolicyA.formatResult c7OrderA = Except.ok m :=
  format_total_for_validated_orders.1 c7OrderA (by decide)

/-- Inserting a row whose id is below every id of a descending list lands at
the end of the list. -/
lemma insertDesc_all_lt (p : Product) :
    ∀ l : List Product, (∀ q ∈ l, p.id < q.id) → insertDesc p l = l ++ [p] := by
  intro l
  induction l with
  | nil => intro _; rfl
  | cons q qs ih =>
      intro h
      have hq : p.id < q.id := h q (by simp)
      simp only [insertDesc]
      rw [if_neg (Nat.not_le.mpr hq), ih (fun r hr => h r (by simp [hr]))]
      rfl

/-- On a list with strictly increasing ids, sorting by descending id is
exactly list reversal. -/
lemma sortByIdDesc_of_increasing :
    ∀ l : List Product, IdsIncreasing l → sortByIdDesc l = l.reverse := by
  intro l
  induction l with
  | nil => intro _; rfl
  | cons p ps ih =>
      intro h
      obtain ⟨h1, h2⟩ := List.pairwise_cons.mp h
      simp only [sortByIdDesc]
      rw [ih h2,
        insertDesc_all_lt p ps.reverse (fun q hq => h1 q (List.mem_reverse.mp hq)),
        List.reverse_cons]

/-- A raw insert preserves the store invariant. -/
lemma insertRecord_inv (f : ProductFields) (s : Store) (h : StoreInv s) :
    StoreInv (insertRecord f s).1 := by
  obtain ⟨h1, h2⟩ := h
  constructor
  · refine List.pairwise_append.mpr ⟨h1, by simp, ?_⟩
    intro a ha b hb
    have hb2 : b = (insertRecord f s).2 := by simpa using hb
    subst hb2
    exact h2 a ha
  · intro p hp
    rcases List.mem_append.mp hp with hmem | hmem
    · exact Nat.lt_trans (h2 p hmem) (Nat.lt_succ_self _)
    · have hp2 : p = (insertRecord f s).2 := by simpa using hmem
      subst hp2
      exact Nat.lt_succ_self _

/-- A sequence of raw inserts preserves the store invariant. -/
lemma applyInserts_inv :
    ∀ (fs : List ProductFields) (s : Store), StoreInv s → StoreInv (applyInserts fs s) := by
  intro fs
  induction fs with
  | nil => intro s h; exact h
  | cons f fs ih => intro s h; exact ih _ (insertRecord_inv f s h)

/-- C8: after any sequence of insertions into the empty store, the product
listing returns all stored rows in reverse insertion order, which is
strictly descending in id (most recently created first). -/
theorem list_products_descending_id (fs : List ProductFields) :
    (listProducts (applyInserts fs emptyStore)).body
      = Body.productList ((applyInserts fs emptyStore).products.reverse) ∧
    List.Pairwise (fun a b => b.id < a.id)
      ((applyInserts fs emptyStore).products.reverse) := by
  have hinv := applyInserts_inv fs emptyStore
    ⟨List.Pairwise.nil, by intro p hp; simp [emptyStore] at hp⟩
  constructor
  · show Body.productList (sortByIdDesc _) = _
    rw [sortByIdDesc_of_increasing _ hinv.1]
  · exact List.pairwise_reverse.mpr hinv.1

/-- Filtering a list twice with the same predicate equals filtering once. -/
lemma filter_filter_self (p : Product → Bool) :
    ∀ l : List Product, (l.filter p).filter p = l.filter p := by
  intro l
  induction l with
  | nil => rfl
  | cons a t ih =>
      by_cases h : p a = true
      · simp [List.filter_cons, h, ih]
      · simp [List.filter_cons, h, ih]

/-- C9: the delete handler answers 200 with the deletion message for every
id, existing or not, and deleting the same id twice leaves the store exactly
as deleting it once. -/
theorem delete_idempotent_and_succeeds (s : Store) (i : Nat) :
    (PolicyA.deleteProduct i s).2
      = { status := 200, body := Body.msgObj "Product deleted" } ∧
    (PolicyA.deleteProduct i (PolicyA.deleteProduct i s).1).1
      = (PolicyA.deleteProduct i s).1 := by
  refine ⟨rfl, ?_⟩
  simp [PolicyA.deleteProduct, filter_filter_self]

/-- The UPDATE row map is the identity when no row id matches. -/
lemma map_updateRow_eq_self (r : ProductReq) (i : Nat) :
    ∀ l : List Product, (∀ p ∈ l, p.id ≠ i) → l.map (PolicyA.updateRow r i) = l := by
  intro l
  induction l with
  | nil => intro _; rfl
  | cons a t ih =>
      intro h
      have ha : a.id ≠ i := h a (by simp)
      have hbeq : (a.id == i) = false := by simpa using ha
      simp [PolicyA.updateRow, hbeq, ih (fun p hp => h p (by simp [hp]))]

/-- The RETURNING * row set is empty when no row id matches. -/
lemma filter_id_eq_nil (i : Nat) :
    ∀ l : List Product, (∀ p ∈ l, p.id ≠ i) → l.filter (fun p => p.id == i) = [] := by
  intro l
  induction l with
  | nil => intro _; rfl
  | cons a t ih =>
      intro h
      have ha : a.id ≠ i := h a (by simp)
      have hbeq : (a.id == i) = false := by simpa using ha
      simp [List.filter_cons, hbeq, ih (fun p hp => h p (by simp [hp]))]

/-- C10: updating an id for which no row exists answers 200 with the empty
body of res.json applied to undefined — no 404 and no 500 — and leaves the
store unchanged. -/
theorem update_nonexistent_id_200_empty_unchanged
    (r : ProductReq) (i : Nat) (s : Store)
    (h : ∀ p ∈ s.products, p.id ≠ i) :
    PolicyA.updateProduct r i s = (s, { status := 200, body := Body.empty }) := by
  have hmap := map_updateRow_eq_self r i s.products h
  have hfil := filter_id_eq_nil i s.products h
  simp [PolicyA.updateProduct, hmap, hfil]

/-- Witness for C10: updating id 2 in a store whose only row has id 1. -/
theorem update_nonexistent_id_200_empty_unchanged_witness :
    PolicyA.updateProduct c10Req 2 c10Store
      = (c10Store, { status := 200, body := Body.empty }) :=
  update_nonexistent_id_200_empty_unchanged c10Req 2 c10Store (by decide)

end SJServer
